import Mathlib

/-!
Shallow embedding of `src/SceneManager.cpp` (CS-330 scene-composition layer).

Modelling conventions:
* `float` values (colors, shininess, matrix entries) are modelled as `ℚ`;
  the claims under study compare stored values structurally, never through
  float rounding.
* `m_pShaderManager` is modelled by the flag `shaderNull`
  (`true` iff `m_pShaderManager == NULL`).  Each uniform-submission method is
  embedded as a function returning the list of calls it performs on the
  `m_pShaderManager` pointer, in order; an empty list means no call is made
  (and in particular the pointer is not dereferenced).
* The fixed C array `m_textureIDs[...]` together with the counter
  `m_loadedTextures` is modelled by the list of its first `m_loadedTextures`
  entries; writing at index `m_loadedTextures` and incrementing the counter
  is list append, and the write index is the length of the list before the
  append.
* `stbi_load` and `glGenTextures` are external collaborators: their outcomes
  (the decoded image, the fresh texture name) are passed to the embedding as
  explicit arguments.
-/

namespace SceneManager

/-- glm::vec3, with `float` modelled as `ℚ`. -/
structure Vec3 where
  x : ℚ
  y : ℚ
  z : ℚ
deriving DecidableEq

/-- glm::vec2, with `float` modelled as `ℚ`. -/
structure Vec2 where
  x : ℚ
  y : ℚ
deriving DecidableEq

/-- glm::vec4 accessed through the r/g/b/a fields, as in SetShaderColor. -/
structure Vec4 where
  r : ℚ
  g : ℚ
  b : ℚ
  a : ℚ
deriving DecidableEq

/-- Model matrices (glm::mat4), with `float` modelled as `ℚ`. -/
abbrev Mat4 := Matrix (Fin 4) (Fin 4) ℚ

/-- The OBJECT_MATERIAL struct of SceneManager.h, as used by the .cpp:
diffuseColor, specularColor, shininess and tag. -/
structure OBJECT_MATERIAL where
  diffuseColor : Vec3
  specularColor : Vec3
  shininess : ℚ
  tag : String
deriving DecidableEq

/-- One entry of the m_textureIDs array: the GL texture name (GLuint,
modelled as ℕ) and the tag string. -/
structure TEXTURE_ID where
  ID : Nat
  tag : String
deriving DecidableEq

/-- A call performed on the `m_pShaderManager` pointer.  Bool arguments that
the C++ implicitly converts to `int` (as in `setIntValue(name, true)`) are
recorded as `Int` values 1 / 0. -/
inductive ShaderCall where
  | setIntValue (name : String) (v : Int)
  | setFloatValue (name : String) (v : ℚ)
  | setVec2Value (name : String) (v : Vec2)
  | setVec3Value (name : String) (v : Vec3)
  | setVec4Value (name : String) (v : Vec4)
  | setSampler2DValue (name : String) (v : Int)
  | setMat4Value (name : String) (v : Mat4)
deriving DecidableEq

/-- A raw OpenGL call issued by SceneManager itself. -/
inductive GLOp where
  | genTextures (n : Nat)
  | deleteTextures (ids : List Nat)
  | activeTexture (unit : Nat)
  | bindTexture (id : Nat)
deriving DecidableEq

/-- The mutable state of a SceneManager object: the shader-manager pointer
(null or not), the texture registry (first `m_loadedTextures` entries of
`m_textureIDs`, in order) and the material list `m_objectMaterials`. -/
structure SceneState where
  shaderNull : Bool
  textureIDs : List TEXTURE_ID
  objectMaterials : List OBJECT_MATERIAL
deriving DecidableEq

/-- Result of `stbi_load`: width, height and channel count of the decoded
image (the pixel bytes themselves play no role in the registry logic). -/
structure ImageData where
  width : Int
  height : Int
  colorChannels : Int
deriving DecidableEq

/-- SceneManager::CreateGLTexture.  `image` is the result of `stbi_load`
(`none` when the file cannot be read or decoded), `textureID` is the fresh
name produced by `glGenTextures`.  Returns the C++ return value paired with
the state after the call: on success the new entry is written at index
`m_loadedTextures` (the end of the list) and the counter is incremented;
on any failure the registry is untouched. -/
def CreateGLTexture (st : SceneState) (image : Option ImageData)
    (textureID : Nat) (tag : String) : Bool × SceneState :=
  match image with
  | some img =>
      if img.colorChannels = 3 then
        (true, { st with textureIDs := st.textureIDs ++ [⟨textureID, tag⟩] })
      else if img.colorChannels = 4 then
        (true, { st with textureIDs := st.textureIDs ++ [⟨textureID, tag⟩] })
      else
        (false, st)
  | none => (false, st)

/-- SceneManager::BindGLTextures: for each `i < m_loadedTextures`, in order,
`glActiveTexture(GL_TEXTURE0 + i)` then `glBindTexture(m_textureIDs[i].ID)`.
Returned as the list of (texture unit, texture handle) bindings performed. -/
def BindGLTextures (st : SceneState) : List (Nat × Nat) :=
  st.textureIDs.enum.map (fun p => (p.1, p.2.ID))

/-- SceneManager::DestroyGLTextures: for each `i < m_loadedTextures` the code
executes `glGenTextures(1, &m_textureIDs[i].ID)` — it generates a fresh
texture name and stores it over the old handle; no delete call is issued.
`freshIDs i` is the name `glGenTextures` returns at iteration `i`.  Returns
the GL calls issued and the state after the loop. -/
def DestroyGLTextures (st : SceneState) (freshIDs : Nat → Nat) :
    List GLOp × SceneState :=
  (st.textureIDs.map (fun _ => GLOp.genTextures 1),
   { st with textureIDs := st.textureIDs.enum.map (fun p => ⟨freshIDs p.1, p.2.tag⟩) })

/-- The while loop of SceneManager::FindTextureSlot, with `index` the current
value of the loop counter: first entry whose tag compares equal to `tag`
yields its index, otherwise the initial value -1 survives. -/
def findTextureSlotLoop (tag : String) : List TEXTURE_ID → Int → Int
  | [], _ => -1
  | t :: rest, index =>
      if t.tag = tag then index else findTextureSlotLoop tag rest (index + 1)

/-- SceneManager::FindTextureSlot: linear scan from index 0; returns the slot
index of the first matching tag, or the sentinel -1. -/
def FindTextureSlot (st : SceneState) (tag : String) : Int :=
  findTextureSlotLoop tag st.textureIDs 0

/-- The while loop of SceneManager::FindMaterial: scans for the first entry
whose tag matches; on a match it copies diffuseColor, specularColor and
shininess into the by-reference out-parameter `material` (the tag field of
the out-parameter is never written) and stops; otherwise the out-parameter
is returned unchanged. -/
def findMaterialLoop (tag : String) (material : OBJECT_MATERIAL) :
    List OBJECT_MATERIAL → OBJECT_MATERIAL
  | [] => material
  | m :: rest =>
      if m.tag = tag then
        { material with
            diffuseColor := m.diffuseColor
            specularColor := m.specularColor
            shininess := m.shininess }
      else
        findMaterialLoop tag material rest

/-- SceneManager::FindMaterial.  `material` is the caller's out-parameter
value before the call (in the C++ callers it is an uninitialized local).
Returns the C++ return value paired with the out-parameter value after the
call.  Mirrors the source exactly: an empty material list returns `false`
early, and after the scan the function returns `true` unconditionally —
the `bFound` flag is not consulted by the return statement. -/
def FindMaterial (st : SceneState) (tag : String)
    (material : OBJECT_MATERIAL) : Bool × OBJECT_MATERIAL :=
  if st.objectMaterials.length = 0 then
    (false, material)
  else
    (true, findMaterialLoop tag material st.objectMaterials)

/-- glm::scale of a vec3. -/
def glmScale (sx sy sz : ℚ) : Mat4 :=
  !![sx, 0, 0, 0; 0, sy, 0, 0; 0, 0, sz, 0; 0, 0, 0, 1]

/-- glm::rotate about the axis (1,0,0), taking the cosine and sine of the
angle (the source computes the angle as `glm::radians(degrees)`; glm
consumes it only through its cosine and sine). -/
def glmRotateX (c s : ℚ) : Mat4 :=
  !![1, 0, 0, 0; 0, c, -s, 0; 0, s, c, 0; 0, 0, 0, 1]

/-- glm::rotate about the axis (0,1,0), by cosine and sine. -/
def glmRotateY (c s : ℚ) : Mat4 :=
  !![c, 0, s, 0; 0, 1, 0, 0; -s, 0, c, 0; 0, 0, 0, 1]

/-- glm::rotate about the axis (0,0,1), by cosine and sine. -/
def glmRotateZ (c s : ℚ) : Mat4 :=
  !![c, -s, 0, 0; s, c, 0, 0; 0, 0, 1, 0; 0, 0, 0, 1]

/-- glm::translate of a vec3. -/
def glmTranslate (tx ty tz : ℚ) : Mat4 :=
  !![1, 0, 0, tx; 0, 1, 0, ty; 0, 0, 1, tz; 0, 0, 0, 1]

/-- SceneManager::SetTransformations.  The rotation angles arrive in the
source as degrees and are consumed only through the cosine and sine of
`glm::radians(degrees)`; the embedding takes those cosine/sine values
directly (`cosX`/`sinX` for XrotationDegrees, and so on).  Builds
`modelView = translation * rotationZ * rotationY * rotationX * scale` and,
when the shader-manager pointer is non-null, submits it as the `model`
uniform; with a null pointer nothing is submitted. -/
def SetTransformations (st : SceneState) (scaleXYZ : Vec3)
    (cosX sinX cosY sinY cosZ sinZ : ℚ) (positionXYZ : Vec3) :
    List ShaderCall :=
  let scale := glmScale scaleXYZ.x scaleXYZ.y scaleXYZ.z
  let rotationX := glmRotateX cosX sinX
  let rotationY := glmRotateY cosY sinY
  let rotationZ := glmRotateZ cosZ sinZ
  let translation := glmTranslate positionXYZ.x positionXYZ.y positionXYZ.z
  let modelView := translation * rotationZ * rotationY * rotationX * scale
  if st.shaderNull = false then
    [ShaderCall.setMat4Value "model" modelView]
  else
    []

/-- SceneManager::SetShaderColor: under a non-null shader pointer, submits
`bUseTexture = false` (int 0) then the `objectColor` vec4. -/
def SetShaderColor (st : SceneState)
    (redColorValue greenColorValue blueColorValue alphaValue : ℚ) :
    List ShaderCall :=
  if st.shaderNull = false then
    [ShaderCall.setIntValue "bUseTexture" 0,
     ShaderCall.setVec4Value "objectColor"
       ⟨redColorValue, greenColorValue, blueColorValue, alphaValue⟩]
  else
    []

/-- SceneManager::SetShaderTexture: under a non-null shader pointer, submits
`bUseTexture = true` (int 1) then the slot resolved by FindTextureSlot as
the `objectTexture` sampler uniform — the -1 sentinel is passed through
unresolved. -/
def SetShaderTexture (st : SceneState) (textureTag : String) :
    List ShaderCall :=
  if st.shaderNull = false then
    [ShaderCall.setIntValue "bUseTexture" 1,
     ShaderCall.setSampler2DValue "objectTexture" (FindTextureSlot st textureTag)]
  else
    []

/-- SceneManager::SetTextureUVScale: under a non-null shader pointer,
submits the `UVscale` vec2. -/
def SetTextureUVScale (st : SceneState) (u v : ℚ) : List ShaderCall :=
  if st.shaderNull = false then
    [ShaderCall.setVec2Value "UVscale" ⟨u, v⟩]
  else
    []

/-- SceneManager::SetShaderMaterial.  `junk` is the value of the local
`OBJECT_MATERIAL material;` before the call to FindMaterial (the C++ local
is uninitialized, so it is an arbitrary value).  Mirrors the source: when
the material list is non-empty and FindMaterial returns true, three uniform
calls are performed on `m_pShaderManager` — with NO null check on the
pointer (unlike every other submission method in the file). -/
def SetShaderMaterial (st : SceneState) (junk : OBJECT_MATERIAL)
    (materialTag : String) : List ShaderCall :=
  if 0 < st.objectMaterials.length then
    let found := FindMaterial st materialTag junk
    if found.fst = true then
      [ShaderCall.setVec3Value "material.diffuseColor" found.snd.diffuseColor,
       ShaderCall.setVec3Value "material.specularColor" found.snd.specularColor,
       ShaderCall.setFloatValue "material.shininess" found.snd.shininess]
    else
      []
  else
    []

/-- The "gold" material defined first in DefineObjectMaterials. -/
def goldMaterial : OBJECT_MATERIAL :=
  { diffuseColor := ⟨3/10, 3/10, 2/10⟩
    specularColor := ⟨6/10, 5/10, 4/10⟩
    shininess := 22
    tag := "gold" }

/-- SceneManager::DefineObjectMaterials: pushes the seven scene materials
onto `m_objectMaterials` in source order. -/
def DefineObjectMaterials (st : SceneState) : SceneState :=
  { st with objectMaterials := st.objectMaterials ++
      [goldMaterial,
       { diffuseColor := ⟨5/10, 5/10, 5/10⟩, specularColor := ⟨4/10, 4/10, 4/10⟩,
         shininess := 1/2, tag := "cement" },
       { diffuseColor := ⟨3/10, 2/10, 1/10⟩, specularColor := ⟨1/10, 1/10, 1/10⟩,
         shininess := 3/10, tag := "wood" },
       { diffuseColor := ⟨3/10, 2/10, 1/10⟩, specularColor := ⟨4/10, 5/10, 6/10⟩,
         shininess := 25, tag := "tile" },
       { diffuseColor := ⟨3/10, 3/10, 3/10⟩, specularColor := ⟨6/10, 6/10, 6/10⟩,
         shininess := 85, tag := "glass" },
       { diffuseColor := ⟨4/10, 4/10, 5/10⟩, specularColor := ⟨2/10, 2/10, 4/10⟩,
         shininess := 1/2, tag := "clay" },
       { diffuseColor := ⟨95/100, 95/100, 95/100⟩, specularColor := ⟨75/100, 75/100, 75/100⟩,
         shininess := 96, tag := "plasticClear" }] }

/-- The documented texture-slot capacity: the source comments state "There
are up to 16 slots" (BindGLTextures) and "Up to 16 textures can be loaded
per scene" (LoadSceneTextures); valid slot indices are 0..15. -/
def maxTextureSlots : Nat := 16

/-- One `CreateGLTexture` input: the `stbi_load` outcome, the fresh GL
texture name, and the tag. -/
abbrev LoadInput := Option ImageData × Nat × String

/-- Whether a `CreateGLTexture` call with this input succeeds: the image
decodes and has 3 or 4 channels. -/
def loadOk (x : LoadInput) : Bool :=
  match x.1 with
  | some d => d.colorChannels == 3 || d.colorChannels == 4
  | none => false

/-- Runs a sequence of CreateGLTexture calls, threading the state. -/
def runLoads (st : SceneState) : List LoadInput → SceneState
  | [] => st
  | x :: rest => runLoads (CreateGLTexture st x.1 x.2.1 x.2.2).snd rest

/-- A stand-in for the value of an uninitialized local OBJECT_MATERIAL
(used as the out-parameter callers pass to FindMaterial). -/
def junkMaterial : OBJECT_MATERIAL :=
  { diffuseColor := ⟨0, 0, 0⟩
    specularColor := ⟨0, 0, 0⟩
    shininess := 0
    tag := "" }

/-- Seventeen successful load inputs (3-channel images), used to exercise
the registry past the documented 16-slot capacity. -/
def seventeenLoads : List LoadInput :=
  (List.range 17).map (fun i => (some ⟨1, 1, 3⟩, i, "t"))

/-- A successful CreateGLTexture call returns true and appends the new
entry at the end of the registry (index `m_loadedTextures`). -/
theorem createGLTexture_ok (st : SceneState) (x : LoadInput)
    (h : loadOk x = true) :
    (CreateGLTexture st x.1 x.2.1 x.2.2).fst = true
    ∧ (CreateGLTexture st x.1 x.2.1 x.2.2).snd.textureIDs
        = st.textureIDs ++ [⟨x.2.1, x.2.2⟩] := by
  obtain ⟨img, id, tag⟩ := x
  cases img with
  | none => simp [loadOk] at h
  | some d =>
      simp only [loadOk, Bool.or_eq_true, beq_iff_eq] at h
      rcases h with h | h <;> simp [CreateGLTexture, h]

/-- Running a sequence of successful loads appends the corresponding
entries to the registry, in call order. -/
theorem runLoads_textureIDs (loads : List LoadInput) :
    ∀ st : SceneState, (∀ x ∈ loads, loadOk x = true) →
      (runLoads st loads).textureIDs
        = st.textureIDs ++ loads.map (fun x => ⟨x.2.1, x.2.2⟩) := by
  induction loads with
  | nil => intro st _; simp [runLoads]
  | cons x rest ih =>
      intro st h
      have hx := createGLTexture_ok st x (h x (by simp))
      rw [runLoads, ih _ (fun y hy => h y (List.mem_cons_of_mem _ hy)), hx.2]
      simp

/-- The FindTextureSlot scan returns -1 when no entry's tag matches. -/
theorem findTextureSlotLoop_eq_neg_one (tag : String) (l : List TEXTURE_ID)
    (h : ∀ t ∈ l, t.tag ≠ tag) : ∀ k : Int, findTextureSlotLoop tag l k = -1 := by
  induction l with
  | nil => intro k; rfl
  | cons t rest ih =>
      intro k
      have ht : t.tag ≠ tag := h t (by simp)
      rw [findTextureSlotLoop, if_neg ht]
      exact ih (fun y hy => h y (List.mem_cons_of_mem _ hy)) _

/-- When the registry tags are pairwise distinct, the FindTextureSlot scan
started at counter value `k` finds the i-th entry's tag at `k + i`. -/
theorem findTextureSlotLoop_nodup (l : List TEXTURE_ID)
    (hnd : (l.map TEXTURE_ID.tag).Nodup) (i : Nat) (hi : i < l.length) :
    ∀ k : Int, findTextureSlotLoop ((l.get ⟨i, hi⟩).tag) l k = k + i := by
  induction l generalizing i with
  | nil => exact absurd hi (by simp)
  | cons t rest ih =>
      rcases List.nodup_cons.mp hnd with ⟨htnotin, hndrest⟩
      cases i with
      | zero => intro k; simp [findTextureSlotLoop]
      | succ n =>
          intro k
          have hn : n < rest.length := Nat.lt_of_succ_lt_succ hi
          have hget : (t :: rest).get ⟨n + 1, hi⟩ = rest.get ⟨n, hn⟩ := rfl
          have hne : t.tag ≠ (rest.get ⟨n, hn⟩).tag := by
            intro hEq
            exact htnotin (hEq ▸ List.mem_map_of_mem TEXTURE_ID.tag (rest.get_mem n hn))
          rw [hget, findTextureSlotLoop, if_neg hne, ih hndrest n hn (k + 1)]
          omega

/-- The FindMaterial scan copies the three shading fields of the first
entry found by a first-match tag search into the out-parameter. -/
theorem findMaterialLoop_spec (tag : String) (junk : OBJECT_MATERIAL)
    (l : List OBJECT_MATERIAL) (first : OBJECT_MATERIAL)
    (h : l.find? (fun x => x.tag == tag) = some first) :
    findMaterialLoop tag junk l
      = { junk with
          diffuseColor := first.diffuseColor
          specularColor := first.specularColor
          shininess := first.shininess } := by
  induction l with
  | nil => simp at h
  | cons a t ih =>
      by_cases ha : a.tag = tag
      · rw [List.find?_cons_of_pos _ (by simpa using ha)] at h
        cases h
        rw [findMaterialLoop, if_pos ha]
      · rw [List.find?_cons_of_neg _ (by simpa using ha)] at h
        rw [findMaterialLoop, if_neg ha]
        exact ih h

/-- A list containing an entry with the sought tag has a first match. -/
theorem find?_tag_exists (tag : String) (l : List OBJECT_MATERIAL)
    (h : ∃ x ∈ l, x.tag = tag) :
    ∃ first, l.find? (fun x => x.tag == tag) = some first ∧ first.tag = tag := by
  induction l with
  | nil => simp at h
  | cons a t ih =>
      by_cases ha : a.tag = tag
      · exact ⟨a, List.find?_cons_of_pos _ (by simpa using ha), ha⟩
      · obtain ⟨x, hx, hxtag⟩ := h
        rcases List.mem_cons.mp hx with rfl | hxt
        · exact absurd hxtag ha
        · obtain ⟨first, hf, hft⟩ := ih ⟨x, hxt, hxtag⟩
          exact ⟨first, by rw [List.find?_cons_of_neg _ (by simpa using ha)]; exact hf, hft⟩

/-- The tag of the i-th registry entry produced by a load sequence is the
tag of the i-th load input. -/
theorem get_map_entry_tag (loads : List LoadInput) (i : Nat)
    (hi : i < loads.length)
    (hlen : i < (loads.map (fun x : LoadInput => (⟨x.2.1, x.2.2⟩ : TEXTURE_ID))).length) :
    ((loads.map (fun x : LoadInput => (⟨x.2.1, x.2.2⟩ : TEXTURE_ID))).get ⟨i, hlen⟩).tag
      = (loads.get ⟨i, hi⟩).2.2 := by
  induction loads generalizing i with
  | nil => exact absurd hi (by simp)
  | cons x rest ih =>
      cases i with
      | zero => rfl
      | succ n => exact ih n (Nat.lt_of_succ_lt_succ hi) (Nat.lt_of_succ_lt_succ hlen)

/-- Enumerating the handles of a registry commutes with projecting the
handle out of each enumerated entry. -/
theorem enumFrom_map_ID (l : List TEXTURE_ID) :
    ∀ n : Nat, (l.enumFrom n).map (fun p => (p.1, p.2.ID))
      = (l.map TEXTURE_ID.ID).enumFrom n := by
  induction l with
  | nil => intro n; rfl
  | cons t rest ih =>
      intro n
      simp only [List.enumFrom, List.map]
      rw [ih (n + 1)]

/-- Claim C1, refuted by the code: FindMaterial is claimed to report failure
whenever no entry's tag equals the queried tag.  On a registry holding only
the "gold" material, the query "velvet" matches no entry, yet FindMaterial
returns true (success) and leaves the out-parameter unwritten. -/
theorem findMaterial_true_on_missing_tag :
    (∀ m ∈ (⟨false, [], [goldMaterial]⟩ : SceneState).objectMaterials, m.tag ≠ "velvet")
    ∧ FindMaterial ⟨false, [], [goldMaterial]⟩ "velvet" junkMaterial
        = (true, junkMaterial) :=
  ⟨by decide, by decide⟩

/-- Claim C2, refuted by the code: SetShaderMaterial is claimed to submit
nothing when the tag is not in the registry.  With the registry holding only
"gold", the call for the unknown tag "velvet" submits all three material
uniforms, carrying the uninitialized local's values, because FindMaterial
returned true without writing the out-parameter. -/
theorem setShaderMaterial_submits_on_missing_tag :
    (∀ m ∈ (⟨false, [], [goldMaterial]⟩ : SceneState).objectMaterials, m.tag ≠ "velvet")
    ∧ SetShaderMaterial ⟨false, [], [goldMaterial]⟩ junkMaterial "velvet"
        = [ShaderCall.setVec3Value "material.diffuseColor" junkMaterial.diffuseColor,
           ShaderCall.setVec3Value "material.specularColor" junkMaterial.specularColor,
           ShaderCall.setFloatValue "material.shininess" junkMaterial.shininess]
    ∧ SetShaderMaterial ⟨false, [], [goldMaterial]⟩ junkMaterial "velvet" ≠ [] :=
  ⟨by decide, by decide, by decide⟩

/-- Claim C3, refuted by the code: DestroyGLTextures is claimed to delete
the GPU texture of every registered entry.  On a registry holding one entry
with handle 7, the loop issues one glGenTextures call (allocating a fresh
name, here 42) and no glDeleteTextures call; the stored handle is
overwritten with the fresh name and texture 7 is never deleted. -/
theorem destroyGLTextures_generates_instead_of_deleting :
    (DestroyGLTextures ⟨false, [⟨7, "onyx"⟩], []⟩ (fun _ => 42)).fst
        = [GLOp.genTextures 1]
    ∧ GLOp.deleteTextures [7] ∉ (DestroyGLTextures ⟨false, [⟨7, "onyx"⟩], []⟩ (fun _ => 42)).fst
    ∧ (DestroyGLTextures ⟨false, [⟨7, "onyx"⟩], []⟩ (fun _ => 42)).snd.textureIDs
        = [⟨42, "onyx"⟩] :=
  ⟨by decide, by decide, by decide⟩

/-- Two successful load inputs with distinct tags. -/
def sampleLoads : List LoadInput :=
  [(some ⟨2, 2, 3⟩, 5, "wood"), (some ⟨4, 4, 4⟩, 9, "glass")]

/-- Claim C4, confirmed: starting from an empty registry, after a sequence
of successful loads with pairwise-distinct tags, FindTextureSlot on the tag
of the i-th load returns the 0-based index i, and BindGLTextures binds
texture unit i to the handle stored by the i-th load — the bindings are
exactly the enumeration of the handles in load order, with no gaps and no
reordering. -/
theorem slotOf_and_bindAll_follow_load_order (st : SceneState)
    (h0 : st.textureIDs = []) (loads : List LoadInput)
    (hok : ∀ x ∈ loads, loadOk x = true)
    (hnd : (loads.map (fun x => x.2.2)).Nodup) :
    (∀ i (hi : i < loads.length),
        FindTextureSlot (runLoads st loads) ((loads.get ⟨i, hi⟩).2.2) = i)
    ∧ BindGLTextures (runLoads st loads)
        = (loads.map (fun x => x.2.1)).enum := by
  have hids : (runLoads st loads).textureIDs
      = loads.map (fun x => ⟨x.2.1, x.2.2⟩) := by
    rw [runLoads_textureIDs loads st hok, h0, List.nil_append]
  constructor
  · intro i hi
    have hlen : i < (loads.map (fun x : LoadInput => (⟨x.2.1, x.2.2⟩ : TEXTURE_ID))).length := by
      simpa using hi
    have hnd' : ((loads.map (fun x : LoadInput => (⟨x.2.1, x.2.2⟩ : TEXTURE_ID))).map TEXTURE_ID.tag).Nodup := by
      rw [List.map_map]; exact hnd
    have hslot := findTextureSlotLoop_nodup _ hnd' i hlen 0
    rw [get_map_entry_tag loads i hi hlen] at hslot
    show findTextureSlotLoop ((loads.get ⟨i, hi⟩).2.2) (runLoads st loads).textureIDs 0 = (i : Int)
    rw [hids, hslot]
    omega
  · show (runLoads st loads).textureIDs.enum.map (fun p => (p.1, p.2.ID)) = _
    rw [hids]
    show ((loads.map fun x => (⟨x.2.1, x.2.2⟩ : TEXTURE_ID)).enumFrom 0).map (fun p => (p.1, p.2.ID)) = _
    rw [enumFrom_map_ID, List.map_map]
    rfl

/-- Witness for slotOf_and_bindAll_follow_load_order: two successful loads,
"wood" (handle 5) then "glass" (handle 9), from an empty registry. -/
theorem slotOf_and_bindAll_witness :
    ((⟨false, [], []⟩ : SceneState).textureIDs = []
      ∧ (∀ x ∈ sampleLoads, loadOk x = true)
      ∧ (sampleLoads.map (fun x => x.2.2)).Nodup)
    ∧ ((∀ i (hi : i < sampleLoads.length),
          FindTextureSlot (runLoads ⟨false, [], []⟩ sampleLoads)
            ((sampleLoads.get ⟨i, hi⟩).2.2) = i)
        ∧ BindGLTextures (runLoads ⟨false, [], []⟩ sampleLoads)
            = (sampleLoads.map (fun x => x.2.1)).enum) :=
  ⟨⟨rfl, by decide, by decide⟩,
   slotOf_and_bindAll_follow_load_order ⟨false, [], []⟩ rfl sampleLoads
     (by decide) (by decide)⟩

/-- Claim C5, confirmed: under a non-null shader pointer SetTransformations
submits, as the `model` uniform, exactly the product
Translate * RotateZ * RotateY * RotateX * Scale of the matrices built from
its arguments (rotation intrinsic X then Y then Z, translation last); and
that composition at scale (2,1,1), Z-rotation 90 degrees (cosine 0, sine 1)
and translation (1,0,0) maps the homogeneous point (1,0,0,1) to (1,2,0,1).
-/
theorem setTransformations_fixed_composition (st : SceneState)
    (h : st.shaderNull = false) (scaleXYZ positionXYZ : Vec3)
    (cosX sinX cosY sinY cosZ sinZ : ℚ) :
    SetTransformations st scaleXYZ cosX sinX cosY sinY cosZ sinZ positionXYZ
      = [ShaderCall.setMat4Value "model"
          (glmTranslate positionXYZ.x positionXYZ.y positionXYZ.z
            * glmRotateZ cosZ sinZ * glmRotateY cosY sinY * glmRotateX cosX sinX
            * glmScale scaleXYZ.x scaleXYZ.y scaleXYZ.z)]
    ∧ Matrix.mulVec
        (glmTranslate 1 0 0 * glmRotateZ 0 1 * glmRotateY 1 0 * glmRotateX 1 0
          * glmScale 2 1 1) ![1, 0, 0, 1] = ![1, 2, 0, 1] := by
  constructor
  · simp [SetTransformations, h]
  · funext i
    fin_cases i <;>
      simp [Matrix.mulVec, Matrix.mul_apply, Matrix.dotProduct, Fin.sum_univ_four,
        glmTranslate, glmRotateZ, glmRotateY, glmRotateX, glmScale]

/-- Witness for setTransformations_fixed_composition: the scene state with a
non-null shader pointer and the concrete transform of the claim. -/
theorem setTransformations_witness :
    (⟨false, [], []⟩ : SceneState).shaderNull = false
    ∧ (SetTransformations ⟨false, [], []⟩ ⟨2, 1, 1⟩ 1 0 1 0 0 1 ⟨1, 0, 0⟩
        = [ShaderCall.setMat4Value "model"
            (glmTranslate 1 0 0 * glmRotateZ 0 1 * glmRotateY 1 0 * glmRotateX 1 0
              * glmScale 2 1 1)]
      ∧ Matrix.mulVec
          (glmTranslate 1 0 0 * glmRotateZ 0 1 * glmRotateY 1 0 * glmRotateX 1 0
            * glmScale 2 1 1) ![1, 0, 0, 1] = ![1, 2, 0, 1]) :=
  ⟨rfl, setTransformations_fixed_composition ⟨false, [], []⟩ rfl ⟨2, 1, 1⟩ ⟨1, 0, 0⟩
          1 0 1 0 0 1⟩

/-- Claim C6, confirmed: for a tag carried by no registry entry,
FindTextureSlot returns the sentinel -1, and SetShaderTexture (under a
non-null shader pointer) still enables texture-sampling mode
(bUseTexture = 1) and submits the unresolved sentinel -1 as the
objectTexture sampler uniform. -/
theorem setShaderTexture_unloaded_tag (st : SceneState) (tag : String)
    (h : ∀ t ∈ st.textureIDs, t.tag ≠ tag) :
    FindTextureSlot st tag = -1
    ∧ (st.shaderNull = false →
        SetShaderTexture st tag
          = [ShaderCall.setIntValue "bUseTexture" 1,
             ShaderCall.setSampler2DValue "objectTexture" (-1)]) := by
  have hs : FindTextureSlot st tag = -1 :=
    findTextureSlotLoop_eq_neg_one tag st.textureIDs h 0
  refine ⟨hs, fun hn => ?_⟩
  rw [SetShaderTexture, hn]
  simp [hs]

/-- Witness for setShaderTexture_unloaded_tag: registry holding one "onyx"
entry, queried with the unregistered tag "velvet". -/
theorem setShaderTexture_unloaded_tag_witness :
    (∀ t ∈ (⟨false, [⟨7, "onyx"⟩], []⟩ : SceneState).textureIDs, t.tag ≠ "velvet")
    ∧ (FindTextureSlot ⟨false, [⟨7, "onyx"⟩], []⟩ "velvet" = -1
       ∧ ((⟨false, [⟨7, "onyx"⟩], []⟩ : SceneState).shaderNull = false →
           SetShaderTexture ⟨false, [⟨7, "onyx"⟩], []⟩ "velvet"
             = [ShaderCall.setIntValue "bUseTexture" 1,
                ShaderCall.setSampler2DValue "objectTexture" (-1)])) :=
  ⟨by decide, setShaderTexture_unloaded_tag ⟨false, [⟨7, "onyx"⟩], []⟩ "velvet" (by decide)⟩

/-- Claim C7, confirmed: every failing CreateGLTexture call — the image
cannot be read or decoded, or it decodes with a channel count other than 3
or 4 — returns false and leaves the whole state, in particular the texture
registry and the loaded-texture count, unchanged. -/
theorem createGLTexture_failure_no_mutation (st : SceneState)
    (image : Option ImageData) (textureID : Nat) (tag : String)
    (h : image = none
      ∨ ∃ d, image = some d ∧ d.colorChannels ≠ 3 ∧ d.colorChannels ≠ 4) :
    (CreateGLTexture st image textureID tag).fst = false
    ∧ (CreateGLTexture st image textureID tag).snd = st := by
  rcases h with h | ⟨d, hd, h3, h4⟩
  · subst h; exact ⟨rfl, rfl⟩
  · subst hd
    rw [CreateGLTexture]
    simp [h3, h4]

/-- Witness for createGLTexture_failure_no_mutation: a 2-channel image
(unsupported format) offered to a registry already holding one entry. -/
theorem createGLTexture_failure_witness :
    ((some ⟨8, 8, 2⟩ : Option ImageData) = none
      ∨ ∃ d, (some ⟨8, 8, 2⟩ : Option ImageData) = some d
          ∧ d.colorChannels ≠ 3 ∧ d.colorChannels ≠ 4)
    ∧ ((CreateGLTexture ⟨false, [⟨7, "onyx"⟩], []⟩ (some ⟨8, 8, 2⟩) 9 "gray").fst = false
       ∧ (CreateGLTexture ⟨false, [⟨7, "onyx"⟩], []⟩ (some ⟨8, 8, 2⟩) 9 "gray").snd
           = ⟨false, [⟨7, "onyx"⟩], []⟩) :=
  ⟨Or.inr ⟨⟨8, 8, 2⟩, rfl, by decide, by decide⟩,
   createGLTexture_failure_no_mutation ⟨false, [⟨7, "onyx"⟩], []⟩ (some ⟨8, 8, 2⟩) 9 "gray"
     (Or.inr ⟨⟨8, 8, 2⟩, rfl, by decide, by decide⟩)⟩

/-- Claim C8, amended: of the five uniform-submission operations, the four
operations SetTransformations, SetShaderColor, SetShaderTexture and
SetTextureUVScale guard on the shader-manager pointer and perform no call
when it is null; SetShaderMaterial carries no such guard (see the
counterexample theorem). -/
theorem null_shader_skips_guarded_submissions (st : SceneState)
    (h : st.shaderNull = true) (scaleXYZ positionXYZ : Vec3)
    (cosX sinX cosY sinY cosZ sinZ r g b a u v : ℚ) (tag : String) :
    SetTransformations st scaleXYZ cosX sinX cosY sinY cosZ sinZ positionXYZ = []
    ∧ SetShaderColor st r g b a = []
    ∧ SetShaderTexture st tag = []
    ∧ SetTextureUVScale st u v = [] := by
  refine ⟨?_, ?_, ?_, ?_⟩ <;>
    simp [SetTransformations, SetShaderColor, SetShaderTexture, SetTextureUVScale, h]

/-- Witness for null_shader_skips_guarded_submissions: the four guarded
operations on a state whose shader-manager pointer is null. -/
theorem null_shader_skips_guarded_witness :
    (⟨true, [], []⟩ : SceneState).shaderNull = true
    ∧ (SetTransformations ⟨true, [], []⟩ ⟨1, 1, 1⟩ 1 0 1 0 1 0 ⟨0, 0, 0⟩ = []
       ∧ SetShaderColor ⟨true, [], []⟩ 1 1 1 1 = []
       ∧ SetShaderTexture ⟨true, [], []⟩ "onyx" = []
       ∧ SetTextureUVScale ⟨true, [], []⟩ 1 1 = []) :=
  ⟨rfl, null_shader_skips_guarded_submissions ⟨true, [], []⟩ rfl ⟨1, 1, 1⟩ ⟨0, 0, 0⟩
          1 0 1 0 1 0 1 1 1 1 1 1 "onyx"⟩

/-- Counterexample to claim C8 as stated: with a null shader-manager pointer
and a registry holding the "gold" material, SetShaderMaterial "gold" does
not skip submission — it performs its three uniform calls on the null
pointer (no null check exists in SceneManager::SetShaderMaterial). -/
theorem setShaderMaterial_ignores_null_shader :
    (⟨true, [], [goldMaterial]⟩ : SceneState).shaderNull = true
    ∧ SetShaderMaterial ⟨true, [], [goldMaterial]⟩ junkMaterial "gold"
        = [ShaderCall.setVec3Value "material.diffuseColor" goldMaterial.diffuseColor,
           ShaderCall.setVec3Value "material.specularColor" goldMaterial.specularColor,
           ShaderCall.setFloatValue "material.shininess" goldMaterial.shininess]
    ∧ SetShaderMaterial ⟨true, [], [goldMaterial]⟩ junkMaterial "gold" ≠ [] :=
  ⟨rfl, rfl, by
    intro hcontra
    rw [show SetShaderMaterial ⟨true, [], [goldMaterial]⟩ junkMaterial "gold"
        = [ShaderCall.setVec3Value "material.diffuseColor" goldMaterial.diffuseColor,
           ShaderCall.setVec3Value "material.specularColor" goldMaterial.specularColor,
           ShaderCall.setFloatValue "material.shininess" goldMaterial.shininess] from rfl]
      at hcontra
    exact List.cons_ne_nil _ _ hcontra⟩

/-- Claim C9, confirmed: after appending material m to the list (define =
push_back), FindMaterial on m.tag succeeds and the out-parameter receives
the diffuse color, specular color and shininess of the first material in
the list carrying that tag — so with duplicate tags the first-defined
material wins. -/
theorem define_then_find_first_defined (sn : Bool) (tex : List TEXTURE_ID)
    (l : List OBJECT_MATERIAL) (m junk : OBJECT_MATERIAL) :
    ∃ first, (l ++ [m]).find? (fun x => x.tag == m.tag) = some first
      ∧ first.tag = m.tag
      ∧ FindMaterial ⟨sn, tex, l ++ [m]⟩ m.tag junk
          = (true, { junk with
              diffuseColor := first.diffuseColor
              specularColor := first.specularColor
              shininess := first.shininess }) := by
  obtain ⟨first, hf, hft⟩ :=
    find?_tag_exists m.tag (l ++ [m]) ⟨m, by simp, rfl⟩
  refine ⟨first, hf, hft, ?_⟩
  have hne : ¬ (l ++ [m]).length = 0 := by simp
  show (if (l ++ [m]).length = 0 then _ else _) = _
  rw [if_neg hne, findMaterialLoop_spec m.tag junk (l ++ [m]) first hf]

/-- Claim C10, confirmed: every successful CreateGLTexture call returns
true and writes its entry at index m_loadedTextures (the end of the
registry), incrementing the count, with no check against the documented
16-slot capacity; consequently any sequence of more than 16 successful
loads from an empty registry grows the registry past maxTextureSlots, so
entries are written at indices beyond the documented slot bound. -/
theorem createGLTexture_no_capacity_check :
    (∀ (st : SceneState) (d : ImageData) (textureID : Nat) (tag : String),
        (d.colorChannels = 3 ∨ d.colorChannels = 4) →
        (CreateGLTexture st (some d) textureID tag).fst = true
        ∧ (CreateGLTexture st (some d) textureID tag).snd.textureIDs
            = st.textureIDs ++ [⟨textureID, tag⟩])
    ∧ (∀ (st : SceneState) (loads : List LoadInput),
        st.textureIDs = [] → (∀ x ∈ loads, loadOk x = true) →
        maxTextureSlots < loads.length →
        (runLoads st loads).textureIDs.length = loads.length
        ∧ maxTextureSlots < (runLoads st loads).textureIDs.length) := by
  constructor
  · intro st d textureID tag hch
    refine createGLTexture_ok st (some d, textureID, tag) ?_
    rcases hch with h | h <;> simp [loadOk, h]
  · intro st loads h0 hok hlen
    have h := runLoads_textureIDs loads st hok
    rw [h0, List.nil_append] at h
    rw [h, List.length_map]
    exact ⟨rfl, hlen⟩

/-- Witness for createGLTexture_no_capacity_check: a successful 3-channel
load appended to a full 0-entry registry, and seventeen successful loads
carrying the registry past the 16-slot capacity. -/
theorem createGLTexture_no_capacity_witness :
    (((3 : Int) = 3 ∨ (3 : Int) = 4)
      ∧ (CreateGLTexture ⟨false, [], []⟩ (some ⟨1, 1, 3⟩) 5 "t0").fst = true
      ∧ (CreateGLTexture ⟨false, [], []⟩ (some ⟨1, 1, 3⟩) 5 "t0").snd.textureIDs
          = [] ++ [⟨5, "t0"⟩])
    ∧ ((⟨false, [], []⟩ : SceneState).textureIDs = []
      ∧ (∀ x ∈ seventeenLoads, loadOk x = true)
      ∧ maxTextureSlots < seventeenLoads.length
      ∧ (runLoads ⟨false, [], []⟩ seventeenLoads).textureIDs.length
          = seventeenLoads.length
      ∧ maxTextureSlots < (runLoads ⟨false, [], []⟩ seventeenLoads).textureIDs.length) := by
  refine ⟨⟨Or.inl rfl, ?_⟩, rfl, by decide, by decide, ?_⟩
  · exact createGLTexture_no_capacity_check.1 ⟨false, [], []⟩ ⟨1, 1, 3⟩ 5 "t0" (Or.inl rfl)
  · exact createGLTexture_no_capacity_check.2 ⟨false, [], []⟩ seventeenLoads rfl
      (by decide) (by decide)

end SceneManager
